import Mathlib

/-
Verification of the course-advisor engine (profile builder, course matcher,
intent dispatch, context assembly) against its natural-language specification.

The Python sources are shallowly embedded as executable Lean definitions.
Conventions used throughout:
  * Python strings are Lean `String`; `s.lower()` is `pyLower`,
    `s.strip()` is `pyTrim`, the Python substring test `a in b` is
    `pyIn a b` (infix containment on the character lists), and `s.split()`
    (split on whitespace runs, dropping empties) is `pyWords s`.
  * Python dicts appearing as ordered mark tables are association lists
    `List (String × Int)` in insertion order, matching `dict.items()`.
  * `list(set(xs))` has an unspecified iteration order in Python; it is
    embedded as `List.dedup` (first occurrence kept).  Every theorem below
    that touches such a list depends only on order-insensitive facts
    (emptiness, membership, cardinality), so the choice is immaterial.
  * External collaborators (pdfplumber, the sentence-transformer encoder,
    FAISS, the scraper, the LLM API) are abstracted as explicit parameters
    or outcome values; everything the repository itself computes is
    translated literally.
-/

namespace DYD

/-- Python substring containment: `needle in haystack`. -/
def pyIn (needle haystack : String) : Bool :=
  decide (needle.data <:+: haystack.data)

/-- Python `str.lower()` (character-wise; all strings involved are ASCII). -/
def pyLower (s : String) : String :=
  ⟨s.data.map Char.toLower⟩

/-- Python `str.strip()`: drop leading and trailing whitespace. -/
def pyTrim (s : String) : String :=
  ⟨((s.data.dropWhile Char.isWhitespace).reverse.dropWhile Char.isWhitespace).reverse⟩

/-- Accumulating scanner behind `pyWords`. -/
def pyWordsAux : List Char → List Char → List String
  | [], acc => if acc.isEmpty then [] else [⟨acc.reverse⟩]
  | c :: rest, acc =>
    if c.isWhitespace then
      if acc.isEmpty then pyWordsAux rest [] else ⟨acc.reverse⟩ :: pyWordsAux rest []
    else pyWordsAux rest (c :: acc)

/-- Python `str.split()` with no argument: split on whitespace runs and drop
empty pieces. -/
def pyWords (s : String) : List String :=
  pyWordsAux s.data []

/-- Python slice `s[:n]` on a string. -/
def pyTake (n : Nat) (s : String) : String :=
  ⟨s.data.take n⟩

/-- Fuel-driven scanner behind `pyReplace`; the fuel starts above the input
length, so it never runs out. -/
def pyReplaceAux (pat repl : List Char) : Nat → List Char → List Char
  | 0, cs => cs
  | fuel + 1, cs =>
    if pat.isPrefixOf cs ∧ pat ≠ [] then
      repl ++ pyReplaceAux pat repl fuel (cs.drop pat.length)
    else
      match cs with
      | [] => []
      | c :: rest => c :: pyReplaceAux pat repl fuel rest

/-- Python `str.replace(pat, repl)`: replace every non-overlapping
occurrence, scanning left to right (for a non-empty pattern, which is the
only way it is used below). -/
def pyReplace (s pat repl : String) : String :=
  ⟨pyReplaceAux pat.data repl.data (s.data.length + 1) s.data⟩

/-- Degree-level selection string used throughout the app for bachelors. -/
def bachelorsDegree : String := "Bachelor\x27s Degree"

/-- Degree-level selection string used throughout the app for masters. -/
def mastersDegree : String := "Master\x27s Degree"

/-! ## profile_builder.py -/

/-- Sample mark table substituted by `extract_marks_from_pdf` when pdfplumber
raises (source: profile_builder.py lines 64-74, the except-branch). -/
def sample_marks : List (String × Int) :=
  [("Mathematics", 85), ("Physics", 78), ("Chemistry", 82),
   ("English", 88), ("Computer Science", 92)]

/-- Outcome of the try-body of `extract_marks_from_pdf`: the pdfplumber and
regex scanning of the PDF text (an external document source plus the pattern
loops of lines 7-62) either raises, or yields the parsed mark table, which is
empty when no line matched any pattern and the lenient pass found nothing. -/
inductive PdfOutcome where
  | raises : PdfOutcome
  | text : List (String × Int) → PdfOutcome

/-- Embedding of `extract_marks_from_pdf` (profile_builder.py lines 4-77):
the try-body outcome is passed in; the except-branch substitutes
`sample_marks` exactly as lines 64-74 do. -/
def extract_marks_from_pdf (outcome : PdfOutcome) : List (String × Int) :=
  match outcome with
  | .text parsed => parsed
  | .raises => sample_marks

/-- Interest keyword taxonomy of `extract_interests_from_text`
(profile_builder.py lines 88-137), transcribed verbatim in source order. -/
def interest_mapping : List (String × List String) :=
  [("Technology",
    ["technology", "tech", "computer", "programming", "coding", "software", "ai",
     "artificial intelligence", "machine learning", "data science", "web development",
     "app development", "python", "java", "javascript", "cybersecurity", "robotics"]),
   ("Design",
    ["design", "graphic", "visual", "creative", "art", "drawing", "painting", "sketch",
     "ui", "ux", "user experience", "illustration", "photography", "animation",
     "web design", "interior design", "fashion design", "product design"]),
   ("Business",
    ["business", "management", "entrepreneur", "entrepreneurship", "startup", "finance",
     "accounting", "marketing", "sales", "commerce", "economics", "consulting",
     "leadership", "strategy", "project management", "operations"]),
   ("Science",
    ["science", "physics", "chemistry", "biology", "research", "laboratory", "experiment",
     "analysis", "statistics", "mathematics", "math", "environmental science",
     "biotechnology", "medical research", "clinical research"]),
   ("Sports",
    ["sports", "sport", "athletics", "running", "fitness", "gym", "exercise", "swimming",
     "football", "basketball", "tennis", "cricket", "cycling", "yoga", "dance",
     "physical education", "coaching", "competition", "team sports"]),
   ("Communication",
    ["communication", "writing", "journalism", "media", "public speaking", "presentation",
     "content creation", "blogging", "social media", "broadcasting", "storytelling",
     "copywriting", "editing", "publishing", "reporting"]),
   ("Music",
    ["music", "singing", "instrument", "piano", "guitar", "drums", "composition",
     "performing", "band", "orchestra", "concert", "recording", "audio"]),
   ("Literature",
    ["literature", "reading", "books", "poetry", "writing", "stories", "novels",
     "language", "linguistics", "creative writing", "translation", "cultural studies"]),
   ("Social Work",
    ["social", "community", "helping", "volunteering", "service", "charity",
     "social work", "counseling", "teaching", "education", "mentoring",
     "non-profit", "activism", "welfare", "healthcare", "psychology"]),
   ("Engineering",
    ["engineering", "engineer", "mechanical", "electrical", "civil", "chemical",
     "aerospace", "biomedical", "industrial", "construction", "manufacturing",
     "automation", "systems", "technical", "innovation"])]

/-- Embedding of `extract_interests_from_text` (profile_builder.py 79-145). -/
def extract_interests_from_text (interest_text : String) : List String :=
  if interest_text == "" then []
  else
    let text_lower := pyLower interest_text
    ((interest_mapping.filter
        (fun p => p.2.any (fun k => pyIn k text_lower))).map Prod.fst).dedup

/-- Activity taxonomy of `extract_activities_and_skills`
(profile_builder.py lines 157-198): category, activity keywords, skills. -/
def activity_skill_mapping : List (String × List String × List String) :=
  [("Leadership",
    (["president", "leader", "captain", "head", "coordinator", "organize", "lead team"],
     ["Leadership", "Team Management", "Organization"])),
   ("Technical Projects",
    (["coding", "programming", "hackathon", "tech", "app", "website", "software", "project"],
     ["Technical Skills", "Problem Solving", "Innovation"])),
   ("Creative Arts",
    (["art", "design", "painting", "photography", "creative", "drawing", "graphics"],
     ["Creativity", "Visual Communication", "Artistic Expression"])),
   ("Sports & Athletics",
    (["sports", "athletics", "team", "competition", "tournament", "fitness", "captain"],
     ["Teamwork", "Discipline", "Physical Fitness", "Competitive Spirit"])),
   ("Community Service",
    (["volunteer", "community", "service", "ngo", "charity", "social", "help"],
     ["Social Responsibility", "Empathy", "Communication"])),
   ("Academic Excellence",
    (["competition", "olympiad", "quiz", "debate", "research", "science fair"],
     ["Analytical Thinking", "Research Skills", "Academic Excellence"])),
   ("Performance & Arts",
    (["music", "dance", "theater", "performance", "singing", "acting"],
     ["Performance Skills", "Confidence", "Cultural Awareness"])),
   ("Business & Entrepreneurship",
    (["business", "entrepreneur", "startup", "internship", "work", "sales"],
     ["Business Acumen", "Professional Skills", "Initiative"]))]

/-- Embedding of `extract_activities_and_skills` (profile_builder.py 147-210). -/
def extract_activities_and_skills (activities_text : String) :
    List String × List String :=
  if activities_text == "" then ([], [])
  else
    let text_lower := pyLower activities_text
    let hits := activity_skill_mapping.filter
      (fun e => e.2.1.any (fun k => pyIn k text_lower))
    ((hits.map Prod.fst).dedup, (hits.flatMap (fun e => e.2.2)).dedup)

/-- Boolean condition of the first rubric check of
`analyze_profile_completeness`: marks present for at least 3 subjects. -/
def marksOk (marks : List (String × Int)) : Bool :=
  !marks.isEmpty && decide (3 ≤ marks.length)

/-- Second rubric check: at least one derived interest. -/
def interestsOk (interests : List String) : Bool :=
  !interests.isEmpty && decide (1 ≤ interests.length)

/-- Third rubric check: aspiration narrative of at least 8 words. -/
def aspirationOk (aspiration : String) : Bool :=
  !(aspiration == "") && decide (8 ≤ (pyWords aspiration).length)

/-- Fourth rubric check: academic-interest narrative of at least 10 words. -/
def favSubjectsOk (favorite_subjects : String) : Bool :=
  !(favorite_subjects == "") && decide (10 ≤ (pyWords favorite_subjects).length)

/-- Fifth rubric check: activity narrative of at least 5 words. -/
def extraCurricularOk (extra_curricular : String) : Bool :=
  !(extra_curricular == "") && decide (5 ≤ (pyWords extra_curricular).length)

/-- Embedding of `analyze_profile_completeness` (profile_builder.py 243-278):
returns the completeness score and the missing-area labels, accumulated in
the source order.  The `work_preference` parameter is accepted and ignored,
exactly as in the source. -/
def analyze_profile_completeness (marks : List (String × Int))
    (interests : List String)
    (aspiration _work_preference favorite_subjects extra_curricular : String) :
    Nat × List String :=
  ((if marksOk marks then 25 else 0) +
   (if interestsOk interests then 20 else 0) +
   (if aspirationOk aspiration then 25 else 0) +
   (if favSubjectsOk favorite_subjects then 20 else 0) +
   (if extraCurricularOk extra_curricular then 10 else 0),
   (if marksOk marks then [] else ["academic performance data"]) ++
   (if interestsOk interests then [] else ["demonstrated interests from certificates"]) ++
   (if aspirationOk aspiration then [] else ["detailed career aspiration"]) ++
   (if favSubjectsOk favorite_subjects then [] else ["detailed subject preferences"]) ++
   (if extraCurricularOk extra_curricular then [] else ["extracurricular activities"]))

/-- Clarifying-question template for missing academic performance data. -/
def qMarks : String :=
  "I\x27d like to understand your academic strengths better. Could you tell me which subjects you scored highest in and what grades you achieved?"

/-- Clarifying-question template for missing certificate interests. -/
def qInterests : String :=
  "What activities, hobbies, or skills have you pursued outside of regular academics? Any competitions, workshops, or certifications?"

/-- Clarifying-question template for a missing career aspiration. -/
def qAspiration : String :=
  "Could you elaborate more on your career goals? What specific role do you see yourself in, and what impact do you want to make?"

/-- Clarifying-question template for missing subject preferences. -/
def qSubjects : String :=
  "Tell me more about the subjects that excite you most. What specific topics within these subjects fascinate you, and how do you like to learn them?"

/-- Clarifying-question template for missing extracurricular activities. -/
def qActivities : String :=
  "Have you been involved in any projects, clubs, volunteering, internships, or other activities? These help me understand your broader interests and skills."

/-- Embedding of `generate_clarifying_questions` (profile_builder.py 280-299):
one templated question per missing area, emitted in the fixed source order. -/
def generate_clarifying_questions (missing_areas : List String) : List String :=
  (if missing_areas.contains "academic performance data" then [qMarks] else []) ++
  (if missing_areas.contains "demonstrated interests from certificates" then [qInterests] else []) ++
  (if missing_areas.contains "detailed career aspiration" then [qAspiration] else []) ++
  (if missing_areas.contains "detailed subject preferences" then [qSubjects] else []) ++
  (if missing_areas.contains "extracurricular activities" then [qActivities] else [])

/-- Ordering used by Python `sorted(marks.items(), key=lambda x: x[1],
reverse=True)` on the index-decorated mark list: higher score first, and --
because Python sorting is stable, also under `reverse=True` -- equal scores
keep their original insertion order, i.e. ascending original index. -/
def pyMarksRel (a b : Nat × String × Int) : Prop :=
  b.2.2 < a.2.2 ∨ (a.2.2 = b.2.2 ∧ a.1 ≤ b.1)

instance : DecidableRel pyMarksRel := fun a b =>
  decidable_of_iff (b.2.2 < a.2.2 ∨ (a.2.2 = b.2.2 ∧ a.1 ≤ b.1)) Iff.rfl

instance : IsTotal (Nat × String × Int) pyMarksRel where
  total a b := by
    rcases lt_trichotomy a.2.2 b.2.2 with h | h | h
    · exact Or.inr (Or.inl h)
    · rcases Nat.le_total a.1 b.1 with h' | h'
      · exact Or.inl (Or.inr ⟨h, h'⟩)
      · exact Or.inr (Or.inr ⟨h.symm, h'⟩)
    · exact Or.inl (Or.inl h)

instance : IsTrans (Nat × String × Int) pyMarksRel where
  trans a b c hab hbc := by
    rcases hab with h1 | ⟨h1, h1'⟩ <;> rcases hbc with h2 | ⟨h2, h2'⟩
    · exact Or.inl (h2.trans h1)
    · exact Or.inl (h2 ▸ h1)
    · exact Or.inl (h1 ▸ h2)
    · exact Or.inr ⟨h1.trans h2, h1'.trans h2'⟩

/-- Embedding of the stable descending sort of the mark table: the Python
stable sort with `reverse=True` produces the unique arrangement that is
sorted by score descending with ties in original-index order, which is what
`insertionSort pyMarksRel` computes on the index-decorated list. -/
def sortMarksDesc (marks : List (String × Int)) : List (String × Int) :=
  (marks.enum.insertionSort pyMarksRel).map Prod.snd

/-- Mapping from a matched activity category to the interest it contributes
(build_student_profile, profile_builder.py 316-331). -/
def activity_to_interest (activity : String) : Option String :=
  if pyIn "Technical" activity then some "Technology"
  else if pyIn "Creative" activity then some "Design"
  else if pyIn "Sports" activity then some "Sports"
  else if pyIn "Business" activity then some "Business"
  else if pyIn "Community" activity then some "Social Work"
  else if pyIn "Performance" activity then some "Music"
  else if pyIn "Academic" activity then some "Science"
  else none

/-- Structured student profile as assembled by `build_student_profile`. -/
structure StudentProfile where
  marks_data : List (String × Int)
  strengths : List String
  interests : List String
  activities : List String
  derived_skills : List String
  degree_level : String
  favorite_subjects : List String
  aspiration : String
  work_preference : String
  extra_curricular_details : String
  completeness_score : Nat
  needs_clarification : Bool
  clarifying_questions : List String
  missing_areas : List String
deriving DecidableEq, Repr

/-- Embedding of `build_student_profile` (profile_builder.py 301-359). -/
def build_student_profile (marks : List (String × Int))
    (interests_from_certs : List String)
    (degree_level q1 q2 q3 q4 : String) : StudentProfile :=
  let sorted_subjects := if marks.isEmpty then [] else sortMarksDesc marks
  let strengths := (sorted_subjects.take 3).map Prod.fst
  let interests_from_text := extract_interests_from_text q3
  let acts := extract_activities_and_skills q4
  let activities := acts.1
  let derived_skills := acts.2
  let all_interests0 := (interests_from_certs ++ interests_from_text).dedup
  let activity_interests := activities.filterMap activity_to_interest
  let all_interests := (all_interests0 ++ activity_interests).dedup
  let res := analyze_profile_completeness marks all_interests q1 q2 q3 q4
  let completeness_score := res.1
  let missing_areas := res.2
  let needs_clarification := decide (completeness_score < 70)
  let clarifying_questions :=
    if needs_clarification then generate_clarifying_questions missing_areas else []
  { marks_data := marks
    strengths := strengths
    interests := all_interests
    activities := activities
    derived_skills := derived_skills
    degree_level := degree_level
    favorite_subjects := [q3]
    aspiration := q1
    work_preference := q2
    extra_curricular_details := q4
    completeness_score := completeness_score
    needs_clarification := needs_clarification
    clarifying_questions := clarifying_questions
    missing_areas := missing_areas }

/-! ## Course records and profiles as seen by the matcher -/

/-- Course record from courses.json.  Missing JSON fields are read in the
source through `course.get(key, default)`; they are total fields with the
same defaults here. -/
structure Course where
  course : String := ""
  degree : String := ""
  subjects : List String := []
  source_url : String := ""
  description : String := ""
deriving DecidableEq, Repr

/-- Profile fields consulted by the matcher functions (`profile.get` reads
of course_matcher.py and embedding_matcher.py). -/
structure Profile where
  degree_level : String := bachelorsDegree
  interests : List String := []
deriving DecidableEq, Repr

/-! ## embedding_matcher.py / enhanced_embedding_matcher.py: semantic path -/

/-- Embedding of `_extract_degree_level` (embedding_matcher.py 153-161 and
enhanced_embedding_matcher.py 364-372, identical in both). -/
def extract_degree_level (c : Course) : String :=
  let course_text := pyLower (c.course ++ " " ++ c.degree)
  if ["bachelor", "b.com", "b.sc", "b.tech", "b.des", "undergraduate"].any
       (fun w => pyIn w course_text) then "bachelors"
  else if ["master", "m.com", "m.sc", "m.tech", "m.des", "postgraduate"].any
       (fun w => pyIn w course_text) then "masters"
  else "unknown"

/-- Target level tag computed in `find_similar_courses` (embedding_matcher.py
line 200): any degree-level string other than the bachelors selection maps
to masters. -/
def target_degree (degree_level : String) : String :=
  if degree_level == bachelorsDegree then "bachelors" else "masters"

/-- Filtering loop of `find_similar_courses` (embedding_matcher.py 202-213):
walk the FAISS-ranked candidates, keep those whose metadata degree level
equals the target, and break once `top_k` matches are collected. -/
def collect_level_matches (target : String) (top_k : Nat) :
    List Course → List Course → List Course
  | [], acc => acc
  | c :: rest, acc =>
    let acc' := if extract_degree_level c = target then acc ++ [c] else acc
    if top_k ≤ acc'.length then acc' else collect_level_matches target top_k rest acc'

/-- Embedding of `find_similar_courses` (embedding_matcher.py 178-219).  The
FAISS nearest-neighbour search over the external sentence-transformer
vectors is abstracted as the `ranked` candidate list (the courses denoted by
the returned indices, in similarity order); the degree filtering and
truncation that the repository itself performs are literal. -/
def find_similar_courses (ranked : List Course) (degree_level : String)
    (top_k : Nat) : List Course :=
  collect_level_matches (target_degree degree_level) top_k ranked []

/-- Outcome of the vector backend inside `get_enhanced_recommendations`:
initialization can fail (line 334-337), the body can raise (line 357-360),
or the FAISS search succeeds with a ranked candidate list. -/
inductive VectorBackend where
  | unavailable : VectorBackend
  | raises : VectorBackend
  | search : List Course → VectorBackend

/-- Embedding of `get_enhanced_recommendations` (embedding_matcher.py
327-360; the enhanced variant of enhanced_embedding_matcher.py 472-508 has
the same shape).  On initialization failure and on any exception the source
returns `courses_data[:10]` with no degree filtering; on success it returns
the degree-filtered top 10.  The conversation-context course is `none` here:
no claim depends on it and its computation is a pure FAISS call. -/
def get_enhanced_recommendations (backend : VectorBackend) (profile : Profile)
    (courses_data : List Course) : List Course × Option Course :=
  match backend with
  | .unavailable => (courses_data.take 10, none)
  | .raises => (courses_data.take 10, none)
  | .search ranked => (find_similar_courses ranked profile.degree_level 10, none)

/-! ## course_matcher.py: keyword fallback and dispatcher -/

/-- Degree filter predicate of `filter_and_match_courses_fallback`
(course_matcher.py 75-79): keyword containment on the lower-cased course
name, with the keyword family chosen by the requested degree level. -/
def degree_keyword_ok (degree_level : String) (c : Course) : Bool :=
  (degree_level == bachelorsDegree &&
    ["bachelor", "b.com", "b.sc", "b.tech", "b.des"].any
      (fun k => pyIn k (pyLower c.course))) ||
  (degree_level == mastersDegree &&
    ["master", "m.com", "m.sc", "m.tech", "m.des"].any
      (fun k => pyIn k (pyLower c.course)))

/-- Interest match predicate of `filter_and_match_courses_fallback`
(course_matcher.py 81-84): some lower-cased interest occurs in the
lower-cased course name joined with its subject list. -/
def interest_text_match (interests_lower : List String) (c : Course) : Bool :=
  interests_lower.any
    (fun i => pyIn i (pyLower (c.course ++ " " ++ String.intercalate " " c.subjects)))

/-- Embedding of `filter_and_match_courses_fallback` (course_matcher.py
69-85). -/
def filter_and_match_courses_fallback (courses : List Course)
    (profile : Profile) : List Course :=
  let degree_level := profile.degree_level
  let interests := profile.interests.map pyLower
  let filtered_by_degree := courses.filter (degree_keyword_ok degree_level)
  if interests.isEmpty then filtered_by_degree.take 10
  else
    let matched_courses := filtered_by_degree.filter (interest_text_match interests)
    if matched_courses.isEmpty then filtered_by_degree.take 10 else matched_courses

/-- Import-time capability state of course_matcher.py (lines 9-22): which
FAISS implementation is importable, and what its backend does when called. -/
inductive FaissAvail where
  | enhanced : VectorBackend → FaissAvail
  | standard : VectorBackend → FaissAvail
  | noFaiss : FaissAvail

/-- Embedding of `get_smart_course_recommendations` (course_matcher.py
41-67).  Both FAISS modules expose the same `get_enhanced_recommendations`
shape, embedded once above; with no FAISS module the keyword fallback runs.
(The except-branches of the source are unreachable because the called
function catches all its own exceptions and returns a value.) -/
def get_smart_course_recommendations (avail : FaissAvail) (profile : Profile)
    (courses : List Course) : List Course :=
  match avail with
  | .enhanced b => (get_enhanced_recommendations b profile courses).1
  | .standard b => (get_enhanced_recommendations b profile courses).1
  | .noFaiss => filter_and_match_courses_fallback courses profile

/-! ## Regex helpers

The source uses a handful of fixed regular expressions.  They are embedded
as direct character-list scanners.  A regex `.` does not cross a newline;
all strings these patterns are applied to in the proofs below are
newline-free, and the embeddings note where that matters. -/

/-- Index of the first occurrence of `pat` as a contiguous sublist of `cs`. -/
def firstSubIdx (pat : List Char) (cs : List Char) : Option Nat :=
  if pat.isPrefixOf cs then some 0
  else
    match cs with
    | [] => none
    | _ :: rest => (firstSubIdx pat rest).map (· + 1)

/-- First index of `cs` whose suffix satisfies `p`. -/
def firstIdxWhere (p : List Char → Bool) (cs : List Char) : Option Nat :=
  if p cs then some 0
  else
    match cs with
    | [] => none
    | _ :: rest => (firstIdxWhere p rest).map (· + 1)

/-- Back off over the whitespace run that immediately precedes position `i`
(the leftmost-match semantics of a regex beginning with a greedy
whitespace-star). -/
def wsBackoff (cs : List Char) (i : Nat) : Nat :=
  i - ((cs.take i).reverse.takeWhile Char.isWhitespace).length

/-- Python `re.sub(pat, r2, s)` for a literal pattern `pat` followed by
a dot-star: cut the string at the first occurrence of `pat`. -/
def cutAtSub (pat : String) (s : String) : String :=
  match firstSubIdx pat.data s.data with
  | none => s
  | some i => ⟨s.data.take i⟩

/-- Embedding of `re.sub` with the pipe pattern of
`find_exact_course_in_database` (course_matcher.py line 117): remove from
the whitespace run preceding the first pipe character to the end. -/
def cutPipeWs (s : String) : String :=
  match firstSubIdx ['|'] s.data with
  | none => s
  | some i => ⟨s.data.take (wsBackoff s.data i)⟩

/-- Matcher for a suffix beginning with the pattern of letters a t, one or
more whitespace characters, then the word jain (all inputs lower-cased). -/
def atJainHere : List Char → Bool
  | 'a' :: 't' :: rest =>
    let n := (rest.takeWhile Char.isWhitespace).length
    decide (1 ≤ n) && "jain".data.isPrefixOf (rest.drop n)
  | _ => false

/-- Embedding of `re.sub` with the at-jain pattern of
`find_exact_course_in_database` (course_matcher.py line 118). -/
def cutAtJainWs (s : String) : String :=
  match firstIdxWhere atJainHere s.data with
  | none => s
  | some i => ⟨s.data.take (wsBackoff s.data i)⟩

/-! ## course_matcher.py: dialogue inspection helpers -/

/-- One dialogue turn. -/
structure Msg where
  role : String
  content : String
deriving DecidableEq, Repr

/-- Consume characters up to and including the first double-star marker. -/
def dropToStars : List Char → Option (List Char)
  | [] => none
  | [_] => none
  | a :: b :: rest =>
    if a = '*' ∧ b = '*' then some rest else dropToStars (b :: rest)

/-- Capture characters up to the next double-star marker, returning the
captured run and the remainder after the marker. -/
def captureStars : List Char → Option (List Char × List Char)
  | [] => none
  | [_] => none
  | a :: b :: rest =>
    if a = '*' ∧ b = '*' then some ([], rest)
    else (captureStars (b :: rest)).map (fun p => (a :: p.1, p.2))

theorem dropToStars_length : ∀ (cs rest : List Char),
    dropToStars cs = some rest → rest.length < cs.length := by
  intro cs
  induction cs with
  | nil => intro rest h; simp [dropToStars] at h
  | cons a tail ih =>
    intro rest h
    cases tail with
    | nil => simp [dropToStars] at h
    | cons b rest2 =>
      rw [dropToStars] at h
      split at h
      · cases h; simp; omega
      · have := ih rest h; simp at this ⊢; omega

theorem captureStars_length : ∀ (cs seg rest : List Char),
    captureStars cs = some (seg, rest) → rest.length < cs.length := by
  intro cs
  induction cs with
  | nil => intro seg rest h; simp [captureStars] at h
  | cons a tail ih =>
    intro seg rest h
    cases tail with
    | nil => simp [captureStars] at h
    | cons b rest2 =>
      rw [captureStars] at h
      split at h
      · cases h; simp; omega
      · cases h' : captureStars (b :: rest2) with
        | none => rw [h'] at h; simp at h
        | some p =>
          rw [h'] at h
          simp at h
          have := ih p.1 p.2 h'
          obtain ⟨h1, h2⟩ := h
          subst h2
          simp at this ⊢
          omega

/-- Fuel-driven scanner behind `bold_segments`; each recursive call strictly
shrinks the character list (`dropToStars_length`, `captureStars_length`), so
fuel above the input length never runs out. -/
def boldSegmentsAux : Nat → List Char → List String
  | 0, _ => []
  | fuel + 1, cs =>
    match dropToStars cs with
    | none => []
    | some rest =>
      match captureStars rest with
      | none => []
      | some (seg, rest') =>
        if seg.contains '\n' then boldSegmentsAux fuel rest
        else ⟨seg⟩ :: boldSegmentsAux fuel rest'

/-- Embedding of the non-greedy capture regex over double-star emphasis
markers used by `extract_suggested_courses_from_chat` (course_matcher.py
line 89): `re.findall` collects the non-overlapping shortest runs between
marker pairs.  A capture cannot cross a newline; when the shortest candidate
run does, scanning resumes after the opening marker. -/
def bold_segments (cs : List Char) : List String :=
  boldSegmentsAux (cs.length + 1) cs

/-- Degree tokens that a bold title must contain to count as a suggested
course (course_matcher.py line 95). -/
def degreeTokens : List String :=
  ["Bachelor", "Master", "B.Com", "B.Des", "M.Des", "B.Sc"]

/-- Embedding of `extract_suggested_courses_from_chat` (course_matcher.py
87-97).  The Python source accumulates into a set; the first-occurrence
dedup order is chosen here, and every theorem below uses only
order-insensitive facts about this list. -/
def extract_suggested_courses_from_chat (chat_history : List Msg) : List String :=
  (((chat_history.filter (fun m => m.role == "assistant")).flatMap
      (fun m => bold_segments m.content.data)).filter
      (fun name => decide (2 < (pyWords name).length) &&
        degreeTokens.any (fun t => pyIn t name))).map pyTrim |>.dedup

/-- Embedding of the title cleaner inside `identify_course_from_user_query`
(course_matcher.py 161-169). -/
def clean_course_name (name : String) : String :=
  let name := pyLower name
  let name := cutAtSub "|" name
  let name := cutAtSub "at jain" name
  let name := cutAtSub "colleges in" name
  let name := pyTrim (pyReplace (pyReplace name "best " "") " b.com" "bachelor of commerce")
  name

/-- Embedding of `identify_course_from_user_query` (course_matcher.py
150-181): the first suggested course whose cleaned core name occurs in the
lower-cased user message. -/
def identify_course_from_user_query (user_message : String)
    (suggested_courses : List String) : Option String :=
  if user_message == "" || suggested_courses.isEmpty then none
  else
    let user_message_lower := pyLower user_message
    suggested_courses.find? (fun course =>
      pyIn (clean_course_name course) user_message_lower)

/-- Embedding of `check_if_asking_for_more_suggestions` (course_matcher.py
183-186). -/
def check_if_asking_for_more_suggestions (user_message : String) : Bool :=
  let message_lower := pyLower user_message
  ["more courses", "other options", "alternatives", "different", "show me more",
   "suggest more", "what else", "anything else", "something different"].any
    (fun k => pyIn k message_lower)

/-- Embedding of `check_if_asking_for_course_details` (course_matcher.py
188-198). -/
def check_if_asking_for_course_details (user_message : String) : Bool :=
  let message_lower := pyLower user_message
  ["subjects", "curriculum", "syllabus", "what is taught", "what subjects",
   "more details", "tell me more", "elaborate", "explain",
   "course content", "modules", "topics covered", "study", "learn"].any
    (fun k => pyIn k message_lower)

/-- Embedding of `is_greeting` (course_matcher.py 202-207): a greeting word
occurs as a substring of the lower-cased stripped input, and the raw input
has at most 3 whitespace-separated words. -/
def is_greeting (user_input : String) : Bool :=
  let input_lower := pyTrim (pyLower user_input)
  (["hi", "hello", "hey", "good morning", "good afternoon", "good evening",
    "greetings"].any (fun w => pyIn w input_lower)) &&
  decide ((pyWords user_input).length ≤ 3)

/-- Embedding of `is_confusion_expression` (course_matcher.py 209-218). -/
def is_confusion_expression (user_input : String) : Bool :=
  let input_lower := pyTrim (pyLower user_input)
  ["i don\x27t know", "i dont know", "don\x27t know", "not sure",
   "i\x27m not sure", "no idea", "unsure", "i don\x27t understand",
   "don\x27t understand", "confused", "help me", "explain", "i have no idea",
   "no clue", "clueless", "lost", "i\x27m lost", "help", "hmmm", "im lost",
   "im not sure"].any (fun p => pyIn p input_lower)

/-- Embedding of `find_exact_course_in_database` (course_matcher.py 99-148).
Word-overlap scores are exact rationals here; the Python floats coincide
with the exact comparisons for the small integer cardinalities involved. -/
def find_exact_course_in_database (user_query : String)
    (all_courses : List Course) : Option Course :=
  if user_query == "" || all_courses.isEmpty then none
  else
    let cleaned_query := pyTrim (pyLower user_query)
    match all_courses.find? (fun course =>
        let cleaned := pyTrim (cutAtJainWs (cutPipeWs (pyLower course.course)))
        pyIn cleaned cleaned_query || pyIn cleaned_query cleaned) with
    | some c => some c
    | none =>
      let best := all_courses.foldl
        (fun (best : Option Course × ℚ) (course : Course) =>
          let course_words := (pyWords (pyLower course.course)).dedup
          let query_words := (pyWords cleaned_query).dedup
          let common := course_words.filter (fun w => query_words.contains w)
          if 2 ≤ common.length then
            let score : ℚ :=
              (common.length : ℚ) / (max course_words.length query_words.length : ℚ)
            if best.2 < score then (some course, score) else best
          else best)
        (none, 0)
      if best.1.isSome && decide ((2 : ℚ) / 5 < best.2) then best.1 else none

/-- Last message of the history, as read by
`prepare_enhanced_context_prompt` (course_matcher.py line 366). -/
def latest_user_message (chat_history : List Msg) : String :=
  (chat_history.getLast?.map Msg.content).getD ""

/-- Branch taken by `prepare_enhanced_context_prompt` (course_matcher.py
361-602).  The function returns prompt strings; each constructor names the
return site whose string is produced, carrying the data the claims are
about. -/
inductive TurnBranch where
  | initialPrompt : TurnBranch
  | courseDetails : TurnBranch
  | greeting : TurnBranch
  | confusion : TurnBranch
  | noMoreAlternatives : TurnBranch
  | moreSuggestions : List Course → TurnBranch
  | generalOrSemantic : TurnBranch
deriving DecidableEq

/-- Embedding of the dispatch structure of `prepare_enhanced_context_prompt`
(course_matcher.py 361-602), faithful to the evaluation order of the
source: the details-or-specific-course branch first, then greeting (only
within the first two turns), then confusion, then the more-suggestions
branch with its exclusion of already-shown titles, and otherwise the
semantic-search or general continuation text (both mapped to
`generalOrSemantic`; which of the two strings is produced depends only on
the external semantic-search collaborator). -/
def prepare_enhanced_context_prompt (avail : FaissAvail) (profile : Profile)
    (all_courses : List Course) (chat_history : List Msg) : TurnBranch :=
  if chat_history.isEmpty then .initialPrompt
  else
    let latest := latest_user_message chat_history
    let suggested := extract_suggested_courses_from_chat chat_history
    let is_greeting_input := is_greeting latest
    let is_confusion_input := is_confusion_expression latest
    let is_asking_for_details := check_if_asking_for_course_details latest
    let specific_course_requested := identify_course_from_user_query latest suggested
    let asking_for_more := check_if_asking_for_more_suggestions latest
    if is_asking_for_details || specific_course_requested.isSome then .courseDetails
    else if is_greeting_input && decide (chat_history.length ≤ 2) then .greeting
    else if is_confusion_input then .confusion
    else if asking_for_more then
      let all_relevant := get_smart_course_recommendations avail profile all_courses
      let suggested_names_lower := suggested.map pyLower
      let new_courses := (all_relevant.filter
        (fun c => !(suggested_names_lower.contains (pyLower c.course)))).take 3
      if new_courses.isEmpty then .noMoreAlternatives
      else .moreSuggestions new_courses
    else .generalOrSemantic

/-! ## enhanced_embedding_matcher.py: scraped data and the point-update -/

/-- Scraped course detail record handed to the point-update path
(realtime_scraper output, consumed in enhanced_embedding_matcher.py). -/
structure ScrapedData where
  subjects : List String := []
  curriculum : List String := []
  description : String := ""
  career_prospects : List String := []
  highlights : List String := []
deriving DecidableEq, Repr

/-- Per-course metadata entry kept by the enhanced matcher
(enhanced_embedding_matcher.py 211-218). -/
structure MetaEntry where
  course : Course
  text : String
  degree_level : String
  enhanced_data : Option ScrapedData
deriving DecidableEq, Repr

/-- Course identity used as the enhanced-data key: the source hashes
name_url with md5 (`_get_course_id`); the pair itself is used here, an
injective stand-in for the digest. -/
def course_id (c : Course) : String × String :=
  (c.course, c.source_url)

/-- Python dict assignment on an association list: replace the value of an
existing key in place, otherwise append the new binding. -/
def dictInsert (k : String × String) (v : ScrapedData)
    (m : List ((String × String) × ScrapedData)) :
    List ((String × String) × ScrapedData) :=
  if m.any (fun p => p.1 == k) then
    m.map (fun p => if p.1 == k then (k, v) else p)
  else m ++ [(k, v)]

/-- Semantic expansion table of the enhanced matcher
(enhanced_embedding_matcher.py 342-362; four domains, unlike the standard
matcher, which has five). -/
def enhanced_semantic_terms (text : String) : List String :=
  (if ["computer", "software", "programming", "data", "ai", "tech"].any
      (fun w => pyIn w text) then
    ["coding", "algorithms", "software development", "digital technology", "innovation"]
  else []) ++
  (if ["design", "animation", "visual", "creative", "art", "graphics"].any
      (fun w => pyIn w text) then
    ["creativity", "visual communication", "artistic expression", "multimedia", "digital art"]
  else []) ++
  (if ["commerce", "business", "management", "finance", "marketing"].any
      (fun w => pyIn w text) then
    ["entrepreneurship", "leadership", "strategy", "economics", "corporate management"]
  else []) ++
  (if ["sports", "physical", "athletics", "fitness", "exercise"].any
      (fun w => pyIn w text) then
    ["teamwork", "discipline", "physical fitness", "coaching", "competitive spirit"]
  else [])

/-- Embedding of `_create_enhanced_course_text`
(enhanced_embedding_matcher.py 147-192). -/
def create_enhanced_course_text (c : Course) (scraped : Option ScrapedData)
    (enhanced_map : List ((String × String) × ScrapedData)) : String :=
  let components :=
    (if c.course != "" then [c.course] else []) ++
    (if c.degree != "" then [c.degree] else []) ++
    c.subjects ++
    (if c.description != "" then [c.description] else [])
  let scraped := match scraped with
    | some s => some s
    | none =>
      (enhanced_map.find?
        (fun (p : (String × String) × ScrapedData) => p.1 == course_id c)).map Prod.snd
  let components := components ++
    (match scraped with
     | none => []
     | some s =>
       s.subjects ++
       (if !s.curriculum.isEmpty then [String.intercalate " " (s.curriculum.take 10)] else []) ++
       (if s.description != "" then [pyTake 500 s.description] else []) ++
       (if !s.career_prospects.isEmpty then
          [String.intercalate " " (s.career_prospects.take 3)] else []) ++
       (if !s.highlights.isEmpty then
          [String.intercalate " " (s.highlights.take 5)] else []))
  let text_for_expansion := pyLower (String.intercalate " " components)
  let components := components ++ enhanced_semantic_terms text_for_expansion
  String.intercalate " " (components.filter (fun s => s != ""))

/-- State of the enhanced matcher, over an abstract embedding-vector type E
(the sentence-transformer vectors are external). `faiss_entries` is the
content of the FAISS index (normalized copies of the embedding rows);
`index_adds` instruments `_rebuild_faiss_index`, recording how many vectors
the last (re)build added to a fresh index. -/
structure MatcherState (E : Type) where
  courses : List Course
  course_embeddings : List E
  faiss_entries : List E
  index_adds : Nat
  course_metadata : List MetaEntry
  enhanced_course_data : List ((String × String) × ScrapedData)
  initialized : Bool

/-- Replace the entry at an index, when it exists, by its image under f. -/
def listModify {α : Type} (l : List α) (i : Nat) (f : α → α) : List α :=
  match l.get? i with
  | none => l
  | some a => l.set i (f a)

/-- Embedding of `_rebuild_faiss_index` (enhanced_embedding_matcher.py
234-247): a fresh IndexFlatIP is created and the normalized copies of ALL
current embedding rows are added to it; `index_adds` records that count. -/
def rebuild_faiss_index {E : Type} (normalize : E → E) (st : MatcherState E) :
    MatcherState E :=
  { st with faiss_entries := st.course_embeddings.map normalize,
            index_adds := st.course_embeddings.length }

/-- Embedding of `add_scraped_course_data` (enhanced_embedding_matcher.py
83-139): find the course by URL; store the scraped record; re-embed the text of that
course; when initialized, swap the embedding row in place, rebuild
the FAISS index in full, and update the metadata entry of that course.  The
encoder is the external model (`encode`); saving to disk is I/O and has no
bearing on the returned state. -/
def add_scraped_course_data {E : Type} (encode : String → E) (normalize : E → E)
    (st : MatcherState E) (course_url : String) (scraped_data : ScrapedData) :
    Bool × MatcherState E :=
  match st.courses.findIdx? (fun c => c.source_url == course_url) with
  | none => (false, st)
  | some idx =>
    let course := st.courses.getD idx {}
    let newMap := dictInsert (course_id course) scraped_data st.enhanced_course_data
    let st1 := { st with enhanced_course_data := newMap }
    let enhanced_text := create_enhanced_course_text course (some scraped_data)
      st1.enhanced_course_data
    let enhanced_embedding := encode enhanced_text
    if st1.initialized then
      let newEmb := st1.course_embeddings.set idx enhanced_embedding
      let st2 := { st1 with course_embeddings := newEmb }
      let st3 := rebuild_faiss_index normalize st2
      let newMeta := listModify st3.course_metadata idx
        (fun m => { m with enhanced_data := some scraped_data, text := enhanced_text })
      let st4 := { st3 with course_metadata := newMeta }
      (true, st4)
    else (true, st1)

/-- Score-descending order with ties by ascending index: the order in which
an exact FAISS inner-product search reports its results. -/
def rankRel (a b : Nat × ℚ) : Prop :=
  b.2 < a.2 ∨ (a.2 = b.2 ∧ a.1 ≤ b.1)

instance : DecidableRel rankRel := fun a b =>
  decidable_of_iff (b.2 < a.2 ∨ (a.2 = b.2 ∧ a.1 ≤ b.1)) Iff.rfl

instance : IsTotal (Nat × ℚ) rankRel where
  total a b := by
    rcases lt_trichotomy a.2 b.2 with h | h | h
    · exact Or.inr (Or.inl h)
    · rcases Nat.le_total a.1 b.1 with h' | h'
      · exact Or.inl (Or.inr ⟨h, h'⟩)
      · exact Or.inr (Or.inr ⟨h.symm, h'⟩)
    · exact Or.inl (Or.inl h)

instance : IsTrans (Nat × ℚ) rankRel where
  trans a b c hab hbc := by
    rcases hab with h1 | ⟨h1, h1'⟩ <;> rcases hbc with h2 | ⟨h2, h2'⟩
    · exact Or.inl (h2.trans h1)
    · exact Or.inl (h2 ▸ h1)
    · exact Or.inl (h1 ▸ h2)
    · exact Or.inr ⟨h1.trans h2, h1'.trans h2'⟩

instance : IsAntisymm (Nat × ℚ) rankRel where
  antisymm a b hab hba := by
    rcases hab with h1 | ⟨h1, h1'⟩ <;> rcases hba with h2 | ⟨h2, h2'⟩
    · exact absurd (h1.trans h2) (lt_irrefl _)
    · exact absurd (h2 ▸ h1) (lt_irrefl _)
    · exact absurd (h1 ▸ h2) (lt_irrefl _)
    · exact Prod.ext (Nat.le_antisymm h1' h2') h1

/-- Exhaustive similarity ranking over the index contents: every entry is
scored against the query and reported by descending score with ties by
ascending index, the order of an exact IndexFlatIP search asked for all
vectors.  The similarity function abstracts the inner product of the
external embedding vectors, exact rationals standing in for the floats. -/
def faiss_full_ranking {E : Type} (sim : E → E → ℚ) (entries : List E) (q : E) :
    List Nat :=
  ((entries.enum.map (fun p => (p.1, sim q p.2))).insertionSort rankRel).map Prod.fst

/-! ## Theorems for the frozen claims -/

/-- Rubric score as a function of the five satisfied-dimension flags, with
the fixed weights 25 / 20 / 25 / 20 / 10 stated by the specification. -/
def rubricScore (b1 b2 b3 b4 b5 : Bool) : Nat :=
  (if b1 then 25 else 0) + (if b2 then 20 else 0) + (if b3 then 25 else 0) +
  (if b4 then 20 else 0) + (if b5 then 10 else 0)

/-- C2 (code_bug): the claim says a failing mark extraction is treated as an
empty mark table with zero rubric credit.  The code agrees when the
extractor parses nothing usable, but when pdfplumber raises it substitutes
the fixed non-empty 5-subject sample table, which earns the full 25-point
marks credit. -/
theorem C2_extractor_failure_substitutes_sample_marks :
    extract_marks_from_pdf .raises = sample_marks
    ∧ extract_marks_from_pdf .raises ≠ []
    ∧ (analyze_profile_completeness (extract_marks_from_pdf .raises) [] "" "" "" "").1 = 25
    ∧ extract_marks_from_pdf (.text []) = [] := by
  refine ⟨rfl, by decide, by decide, rfl⟩

/-- C4: the completeness score is exactly the sum of the rubric credits
(25 for marks on at least 3 subjects, 20 for at least one interest, 25 for
an aspiration of at least 8 words, 20 for an academic-interest narrative of
at least 10 words, 10 for an activity narrative of at least 5 words); hence
it lies in the interval from 0 to 100, it is monotone in the satisfied
dimensions with the others held fixed, and `needs_clarification` holds
exactly when the score is below 70. -/
theorem C4_completeness_rubric :
    (∀ marks interests q1 q2 q3 q4,
      (analyze_profile_completeness marks interests q1 q2 q3 q4).1 =
        rubricScore (marksOk marks) (interestsOk interests) (aspirationOk q1)
          (favSubjectsOk q3) (extraCurricularOk q4)
      ∧ (analyze_profile_completeness marks interests q1 q2 q3 q4).1 ≤ 100)
    ∧ (∀ b1 b2 b3 b4 b5 c1 c2 c3 c4 c5 : Bool,
        b1 ≤ c1 → b2 ≤ c2 → b3 ≤ c3 → b4 ≤ c4 → b5 ≤ c5 →
        rubricScore b1 b2 b3 b4 b5 ≤ rubricScore c1 c2 c3 c4 c5)
    ∧ (∀ marks certs dl q1 q2 q3 q4,
        ((build_student_profile marks certs dl q1 q2 q3 q4).needs_clarification = true ↔
          (build_student_profile marks certs dl q1 q2 q3 q4).completeness_score < 70)) := by
  refine ⟨fun marks interests q1 q2 q3 q4 => ⟨rfl, ?_⟩, by decide,
    fun marks certs dl q1 q2 q3 q4 => ?_⟩
  · show rubricScore _ _ _ _ _ ≤ 100
    cases marksOk marks <;> cases interestsOk interests <;> cases aspirationOk q1 <;>
      cases favSubjectsOk q3 <;> cases extraCurricularOk q4 <;> decide
  · simp [build_student_profile]

/-- Witness for C4 at a concrete input: a profile with marks for three
subjects and nothing else scores exactly 25 and needs clarification, and the
monotonicity part is applied at a concrete pair of flag vectors. -/
theorem C4_completeness_rubric_witness :
    (analyze_profile_completeness [("Math", 90), ("Physics", 40), ("Chemistry", 60)] [] "" "" "" "").1 = 25
    ∧ rubricScore false false false false false ≤ rubricScore true false true false false
    ∧ ((build_student_profile [("Math", 90), ("Physics", 40), ("Chemistry", 60)] [] bachelorsDegree "" "" "" "").needs_clarification = true ↔
        (build_student_profile [("Math", 90), ("Physics", 40), ("Chemistry", 60)] [] bachelorsDegree "" "" "" "").completeness_score < 70) := by
  refine ⟨?_, ?_, ?_⟩
  · have h := (C4_completeness_rubric.1 [("Math", 90), ("Physics", 40), ("Chemistry", 60)] [] "" "" "" "").1
    rw [h]; decide
  · exact C4_completeness_rubric.2.1 false false false false false true false true false false
      (by decide) (by decide) (by decide) (by decide) (by decide)
  · exact C4_completeness_rubric.2.2 [("Math", 90), ("Physics", 40), ("Chemistry", 60)] [] bachelorsDegree "" "" "" ""

/-- Question templates generated from a missing-areas list, computed over
the five rubric flags: one question per unmet dimension, in rubric order. -/
theorem generate_of_missing (b1 b2 b3 b4 b5 : Bool) :
    generate_clarifying_questions
      ((if b1 then [] else ["academic performance data"]) ++
       (if b2 then [] else ["demonstrated interests from certificates"]) ++
       (if b3 then [] else ["detailed career aspiration"]) ++
       (if b4 then [] else ["detailed subject preferences"]) ++
       (if b5 then [] else ["extracurricular activities"])) =
    (([(b1, qMarks), (b2, qInterests), (b3, qAspiration), (b4, qSubjects),
       (b5, qActivities)].filter (fun d => !d.1)).map Prod.snd) := by
  cases b1 <;> cases b2 <;> cases b3 <;> cases b4 <;> cases b5 <;> rfl

/-- Questions generated from the missing-areas output of the analyzer, expressed
through the five rubric flags. -/
theorem generate_analyze (marks : List (String × Int)) (interests : List String)
    (q1 q2 q3 q4 : String) :
    generate_clarifying_questions (analyze_profile_completeness marks interests q1 q2 q3 q4).2 =
    (([(marksOk marks, qMarks), (interestsOk interests, qInterests),
       (aspirationOk q1, qAspiration), (favSubjectsOk q3, qSubjects),
       (extraCurricularOk q4, qActivities)].filter (fun d => !d.1)).map Prod.snd) :=
  generate_of_missing (marksOk marks) (interestsOk interests) (aspirationOk q1)
    (favSubjectsOk q3) (extraCurricularOk q4)

/-- A rubric score below 70 leaves at least one dimension unmet, so at least
one question is generated. -/
theorem rubric_lt70_nonempty (b1 b2 b3 b4 b5 : Bool) :
    rubricScore b1 b2 b3 b4 b5 < 70 →
    (([(b1, qMarks), (b2, qInterests), (b3, qAspiration), (b4, qSubjects),
       (b5, qActivities)].filter (fun d => !d.1)).map Prod.snd) ≠ [] := by
  cases b1 <;> cases b2 <;> cases b3 <;> cases b4 <;> cases b5 <;> simp [rubricScore]

/-- Unfolding of the two clarification fields of `build_student_profile`. -/
theorem build_profile_questions_eq (marks : List (String × Int))
    (certs : List String) (dl q1 q2 q3 q4 : String) :
    (build_student_profile marks certs dl q1 q2 q3 q4).clarifying_questions =
      (if (build_student_profile marks certs dl q1 q2 q3 q4).needs_clarification then
        generate_clarifying_questions
          (analyze_profile_completeness marks
            (build_student_profile marks certs dl q1 q2 q3 q4).interests q1 q2 q3 q4).2
      else []) := rfl

/-- C5: the clarifying questions of a built profile are non-empty exactly
when clarification is needed, and then consist of exactly one templated
question per unmet rubric dimension, in the fixed dimension order of the rubric
(marks, interests, aspiration, academic-interest narrative, activities). -/
theorem C5_clarifying_questions :
    ∀ marks certs dl q1 q2 q3 q4,
      ((build_student_profile marks certs dl q1 q2 q3 q4).clarifying_questions ≠ [] ↔
        (build_student_profile marks certs dl q1 q2 q3 q4).needs_clarification = true)
      ∧ (build_student_profile marks certs dl q1 q2 q3 q4).clarifying_questions =
          (if (build_student_profile marks certs dl q1 q2 q3 q4).needs_clarification then
            (([(marksOk marks, qMarks),
               (interestsOk (build_student_profile marks certs dl q1 q2 q3 q4).interests, qInterests),
               (aspirationOk q1, qAspiration),
               (favSubjectsOk q3, qSubjects),
               (extraCurricularOk q4, qActivities)].filter (fun d => !d.1)).map Prod.snd)
          else []) := by
  intro marks certs dl q1 q2 q3 q4
  have hneeds : (build_student_profile marks certs dl q1 q2 q3 q4).needs_clarification =
      decide ((analyze_profile_completeness marks
        (build_student_profile marks certs dl q1 q2 q3 q4).interests q1 q2 q3 q4).1 < 70) := rfl
  have hscore : (analyze_profile_completeness marks
      (build_student_profile marks certs dl q1 q2 q3 q4).interests q1 q2 q3 q4).1 =
      rubricScore (marksOk marks)
        (interestsOk (build_student_profile marks certs dl q1 q2 q3 q4).interests)
        (aspirationOk q1) (favSubjectsOk q3) (extraCurricularOk q4) := rfl
  constructor
  · rw [build_profile_questions_eq]
    by_cases h : (build_student_profile marks certs dl q1 q2 q3 q4).needs_clarification = true
    · rw [h]
      simp only [if_true, iff_true]
      rw [generate_analyze]
      apply rubric_lt70_nonempty
      rw [← hscore]
      have := of_decide_eq_true (hneeds ▸ h)
      exact this
    · rw [Bool.not_eq_true] at h
      rw [h]
      simp
  · rw [build_profile_questions_eq, generate_analyze]

/-- C5 has no hypothesis; this instance applies it at a concrete input
anyway, checking the all-empty profile generates all five questions. -/
theorem C5_clarifying_questions_witness :
    (build_student_profile [] [] bachelorsDegree "" "" "" "").clarifying_questions =
      [qMarks, qInterests, qAspiration, qSubjects, qActivities] := by
  have h := (C5_clarifying_questions [] [] bachelorsDegree "" "" "" "").2
  rw [h]; decide

/-- Strict version of the Python sort order: score strictly larger first,
equal scores strictly in original insertion order. -/
def strictMarksRel (a b : Nat × String × Int) : Prop :=
  b.2.2 < a.2.2 ∨ (a.2.2 = b.2.2 ∧ a.1 < b.1)

/-- The degree-selection branch of `build_student_profile` collapses: an
empty mark table sorts to the empty list. -/
theorem sorted_subjects_eq (marks : List (String × Int)) :
    (if marks.isEmpty then [] else sortMarksDesc marks) = sortMarksDesc marks := by
  cases marks <;> rfl

/-- C7: the strengths are the first three subjects of the stable descending
sort of the mark table.  Conjuncts: the concrete scenario from the
specification; the sorted table is a permutation of the input; the
index-decorated sorted table is strictly ordered by score descending with
ties strictly in insertion order (which pins the sort result uniquely, i.e.
stability); the strengths field is the three-element prefix of the sort; and
a table with at most three subjects contributes all its subjects. -/
theorem C7_strengths_top3 :
    ((build_student_profile [("Math", 90), ("Physics", 40), ("Chemistry", 60)] []
        bachelorsDegree "" "" "" "").strengths = ["Math", "Chemistry", "Physics"])
    ∧ (∀ marks : List (String × Int),
        (sortMarksDesc marks).Perm marks
        ∧ (marks.enum.insertionSort pyMarksRel).Pairwise strictMarksRel
        ∧ (∀ certs dl q1 q2 q3 q4,
            (build_student_profile marks certs dl q1 q2 q3 q4).strengths =
              ((sortMarksDesc marks).take 3).map Prod.fst)
        ∧ (marks.length ≤ 3 → ∀ certs dl q1 q2 q3 q4,
            ((build_student_profile marks certs dl q1 q2 q3 q4).strengths).Perm
              (marks.map Prod.fst))) := by
  constructor
  · decide
  · intro marks
    have hperm : (marks.enum.insertionSort pyMarksRel).Perm marks.enum :=
      List.perm_insertionSort pyMarksRel marks.enum
    have hsortperm : (sortMarksDesc marks).Perm marks := by
      have h1 := hperm.map Prod.snd
      rw [List.enum_map_snd] at h1
      exact h1
    have hstrength : ∀ certs dl q1 q2 q3 q4,
        (build_student_profile marks certs dl q1 q2 q3 q4).strengths =
          ((sortMarksDesc marks).take 3).map Prod.fst := by
      intro certs dl q1 q2 q3 q4
      show ((if marks.isEmpty then [] else sortMarksDesc marks).take 3).map Prod.fst = _
      rw [sorted_subjects_eq]
    refine ⟨hsortperm, ?_, hstrength, ?_⟩
    · have hs : (marks.enum.insertionSort pyMarksRel).Pairwise pyMarksRel :=
        List.sorted_insertionSort pyMarksRel marks.enum
      have hnd : ((marks.enum.insertionSort pyMarksRel).map Prod.fst).Nodup :=
        ((hperm.map Prod.fst).nodup_iff).mpr (List.nodup_enum_map_fst marks)
      have hpw_ne : (marks.enum.insertionSort pyMarksRel).Pairwise
          (fun a b => a.1 ≠ b.1) := List.pairwise_map.mp hnd
      refine (hs.and hpw_ne).imp ?_
      rintro a b ⟨hr, hne⟩
      rcases hr with h | ⟨hsc, hle⟩
      · exact Or.inl h
      · exact Or.inr ⟨hsc, lt_of_le_of_ne hle hne⟩
    · intro hle certs dl q1 q2 q3 q4
      rw [hstrength certs dl q1 q2 q3 q4]
      have hlen : (sortMarksDesc marks).length = marks.length := by
        unfold sortMarksDesc
        rw [List.length_map, List.length_insertionSort, List.enum_length]
      rw [List.take_of_length_le (by omega)]
      exact hsortperm.map Prod.fst

/-- Witness for C7 at a concrete input: a two-subject table keeps both
subjects, in descending score order. -/
theorem C7_strengths_top3_witness :
    ((build_student_profile [("History", 55), ("Biology", 70)] [] bachelorsDegree
        "" "" "" "").strengths).Perm ["History", "Biology"] ∧
    (build_student_profile [("History", 55), ("Biology", 70)] [] bachelorsDegree
        "" "" "" "").strengths = ["Biology", "History"] := by
  constructor
  · exact (C7_strengths_top3.2 [("History", 55), ("Biology", 70)]).2.2.2 (by decide)
      [] bachelorsDegree "" "" "" ""
  · decide

/-- C10: the keyword fallback result is an order-preserving subsequence of
the catalog -- every course returned is in the catalog, in original relative
order, with multiplicity bounded by the catalog -- and a profile with no
interests receives at most 10 courses. -/
theorem C10_fallback_order_preserving :
    ∀ (courses : List Course) (profile : Profile),
      (filter_and_match_courses_fallback courses profile).Sublist courses
      ∧ (∀ c : Course,
          (filter_and_match_courses_fallback courses profile).count c ≤ courses.count c)
      ∧ (profile.interests = [] →
          (filter_and_match_courses_fallback courses profile).length ≤ 10) := by
  intro courses profile
  have h1 : (courses.filter (degree_keyword_ok profile.degree_level)).Sublist courses :=
    List.filter_sublist courses
  have hsub : (filter_and_match_courses_fallback courses profile).Sublist courses := by
    simp only [filter_and_match_courses_fallback]
    split
    · exact (List.take_sublist _ _).trans h1
    · split
      · exact (List.take_sublist _ _).trans h1
      · exact (List.filter_sublist _).trans h1
  refine ⟨hsub, fun c => hsub.count_le c, fun h => ?_⟩
  simp only [filter_and_match_courses_fallback, h, List.map_nil, List.isEmpty_nil,
    if_true]
  rw [List.length_take]
  omega

/-- Witness for C10 at a concrete input: an interest-free bachelor profile
against a one-course catalog. -/
theorem C10_fallback_order_preserving_witness :
    (filter_and_match_courses_fallback [{ course := "B.Des Animation" }]
        { degree_level := bachelorsDegree, interests := [] }).Sublist
      [{ course := "B.Des Animation" }]
    ∧ (filter_and_match_courses_fallback [{ course := "B.Des Animation" }]
        { degree_level := bachelorsDegree, interests := [] }).length ≤ 10 := by
  refine ⟨(C10_fallback_order_preserving [{ course := "B.Des Animation" }]
      { degree_level := bachelorsDegree, interests := [] }).1, ?_⟩
  exact (C10_fallback_order_preserving [{ course := "B.Des Animation" }]
      { degree_level := bachelorsDegree, interests := [] }).2.2 rfl

/-- Bachelor-level design course of the C3 counterexample catalog. -/
def designCourse : Course := { course := "Bachelor of Design" }

/-- Bachelor-level commerce course of the C3 counterexample catalog. -/
def commerceCourse : Course := { course := "Bachelor of Commerce" }

/-- Profile of the C3 counterexample: bachelor level, one interest. -/
def designProfile : Profile := { degree_level := bachelorsDegree, interests := ["Design"] }

/-- C3 (counterexample): the claim says that with non-empty interests the
fallback returns the concatenation of the three buckets, untruncated --
which contains every degree-eligible course, in particular the neither
bucket.  On this catalog the degree-eligible commerce course is dropped:
only the interest-matching course is returned. -/
theorem C3_counterexample_drops_unmatched_bucket :
    filter_and_match_courses_fallback [designCourse, commerceCourse] designProfile =
      [designCourse]
    ∧ degree_keyword_ok designProfile.degree_level commerceCourse = true
    ∧ commerceCourse ∉ filter_and_match_courses_fallback [designCourse, commerceCourse] designProfile
    ∧ designProfile.interests ≠ [] := by decide

/-- C3 (amended): the fallback filters the catalog to the degree level by
course-name keywords; with empty interests (activities are never consulted)
it returns the first 10 of the degree-filtered list; otherwise it keeps, in
catalog order, exactly the eligible courses whose name-plus-subjects text
contains some interest, untruncated, falling back to the first 10 of the
degree-filtered list when no course matches.  No bucketing by activities and
no activity-to-domain mapping occurs. -/
theorem C3_amended_fallback_shape :
    ∀ (courses : List Course) (profile : Profile),
      filter_and_match_courses_fallback courses profile =
        (let filtered := courses.filter (degree_keyword_ok profile.degree_level)
         if profile.interests.isEmpty then filtered.take 10
         else
           let matched := filtered.filter (interest_text_match (profile.interests.map pyLower))
           if matched.isEmpty then filtered.take 10 else matched) := by
  intro courses profile
  have h : (profile.interests.map pyLower).isEmpty = profile.interests.isEmpty := by
    cases profile.interests <;> rfl
  simp only [filter_and_match_courses_fallback, h]

/-- Courses collected by the degree-filter loop of the semantic path start
from the accumulator or match the target level. -/
theorem collect_level_matches_mem :
    ∀ (ranked acc : List Course) (target : String) (k : Nat) (c : Course),
      c ∈ collect_level_matches target k ranked acc →
      c ∈ acc ∨ extract_degree_level c = target := by
  intro ranked
  induction ranked with
  | nil =>
    intro acc target k c h
    simp only [collect_level_matches] at h
    exact Or.inl h
  | cons x rest ih =>
    intro acc target k c h
    simp only [collect_level_matches] at h
    by_cases hd : extract_degree_level x = target
    · rw [if_pos hd] at h
      by_cases hk : k ≤ (acc ++ [x]).length
      · rw [if_pos hk] at h
        rcases List.mem_append.mp h with h' | h'
        · exact Or.inl h'
        · rcases List.mem_singleton.mp h' with rfl
          exact Or.inr hd
      · rw [if_neg hk] at h
        rcases ih (acc ++ [x]) target k c h with h' | h'
        · rcases List.mem_append.mp h' with h'' | h''
          · exact Or.inl h''
          · rcases List.mem_singleton.mp h'' with rfl
            exact Or.inr hd
        · exact Or.inr h'
    · rw [if_neg hd] at h
      by_cases hk : k ≤ acc.length
      · rw [if_pos hk] at h
        exact Or.inl h
      · rw [if_neg hk] at h
        exact ih acc target k c h

/-- C1 (amended): the semantic search path returns only courses whose
extracted degree level equals the target level, and the keyword fallback
returns only courses passing the degree keyword filter, returning the
explicitly empty list when the degree filter leaves nothing; the
error-recovery paths are excluded (see the counterexample). -/
theorem C1_amended_degree_filtering :
    (∀ (ranked : List Course) (degree_level : String) (top_k : Nat) (c : Course),
        c ∈ find_similar_courses ranked degree_level top_k →
        extract_degree_level c = target_degree degree_level)
    ∧ (∀ (courses : List Course) (profile : Profile) (c : Course),
        c ∈ filter_and_match_courses_fallback courses profile →
        degree_keyword_ok profile.degree_level c = true)
    ∧ (∀ (courses : List Course) (profile : Profile),
        courses.filter (degree_keyword_ok profile.degree_level) = [] →
        filter_and_match_courses_fallback courses profile = []) := by
  refine ⟨?_, ?_, ?_⟩
  · intro ranked degree_level top_k c h
    rcases collect_level_matches_mem ranked [] (target_degree degree_level) top_k c h with
      h' | h'
    · cases h'
    · exact h'
  · intro courses profile c h
    have : c ∈ courses.filter (degree_keyword_ok profile.degree_level) := by
      revert h
      simp only [filter_and_match_courses_fallback]
      split
      · exact fun h => List.mem_of_mem_take h
      · split
        · exact fun h => List.mem_of_mem_take h
        · exact fun h => List.mem_of_mem_filter h
    exact (List.mem_filter.mp this).2
  · intro courses profile hf
    simp only [filter_and_match_courses_fallback, hf]
    split <;> simp

/-- Master-level course of the C1 counterexample catalog. -/
def masterCourse : Course := { course := "Master of Commerce" }

/-- Bachelor profile with no interests, used by the C1 counterexample. -/
def bachelorProfile : Profile := { degree_level := bachelorsDegree, interests := [] }

/-- C1 (counterexample): when the vector backend raises, the error-recovery
path of the matcher returns the first 10 catalog courses without degree
filtering, so a bachelor profile receives a masters course. -/
theorem C1_counterexample_raises_unfiltered :
    (get_enhanced_recommendations .raises bachelorProfile [masterCourse]).1 = [masterCourse]
    ∧ extract_degree_level masterCourse = "masters"
    ∧ target_degree bachelorProfile.degree_level = "bachelors"
    ∧ masterCourse ∈ (get_enhanced_recommendations .raises bachelorProfile [masterCourse]).1 := by
  decide

/-- Witness for C1 at concrete inputs: a masters catalog queried at masters
level keeps its level, and an empty degree filter yields the empty result. -/
theorem C1_amended_degree_filtering_witness :
    extract_degree_level masterCourse = target_degree mastersDegree
    ∧ filter_and_match_courses_fallback [] bachelorProfile = [] := by
  refine ⟨C1_amended_degree_filtering.1 [masterCourse] mastersDegree 10 masterCourse
      (by decide), C1_amended_degree_filtering.2.2 [] bachelorProfile (by decide)⟩

/-- Catalog course of the C6 counterexample: identifiable from the message
by the first-pass name containment of `find_exact_course_in_database`. -/
def bcomCourse : Course := { course := "B.Com", source_url := "u1" }

/-- C6 (counterexample): the message of the single opening turn contains a
greeting word, and it resolves to a catalog course (the finder returns the
B.Com record for it); the claim then requires the turn to be handled as a
specific-course query, but the dispatcher handles it as a greeting, because
the catalog lookup only runs when the detail-keyword test fires and the
message matches no previously-suggested course. -/
theorem C6_counterexample_catalog_greeting :
    prepare_enhanced_context_prompt .noFaiss bachelorProfile [bcomCourse]
      [⟨"user", "hi b.com"⟩] = TurnBranch.greeting
    ∧ find_exact_course_in_database "hi b.com" [bcomCourse] = some bcomCourse
    ∧ is_greeting "hi b.com" = true
    ∧ ([Msg.mk "user" "hi b.com"] : List Msg).length ≤ 2 := by
  decide

/-- C6 (amended): the specific-course branch precedes the greeting branch --
whenever the latest message matches a previously-suggested course, or asks
for course details (the only gate through which a catalog-identified course
is reached), the turn is handled as a specific-course query even if it
greets; and a turn is handled as a greeting only if the message passes the
short-greeting test and the history has at most two turns. -/
theorem C6_amended_intent_precedence :
    (∀ (avail : FaissAvail) (profile : Profile) (courses : List Course) (hist : List Msg),
        hist ≠ [] →
        (check_if_asking_for_course_details (latest_user_message hist) = true ∨
         (identify_course_from_user_query (latest_user_message hist)
            (extract_suggested_courses_from_chat hist)).isSome = true) →
        prepare_enhanced_context_prompt avail profile courses hist = .courseDetails)
    ∧ (∀ (avail : FaissAvail) (profile : Profile) (courses : List Course) (hist : List Msg),
        prepare_enhanced_context_prompt avail profile courses hist = .greeting →
        is_greeting (latest_user_message hist) = true ∧ hist.length ≤ 2 ∧ hist ≠ []) := by
  constructor
  · intro avail profile courses hist hne hcond
    have hie : hist.isEmpty = false := by
      cases hist with
      | nil => exact absurd rfl hne
      | cons a t => rfl
    simp only [prepare_enhanced_context_prompt, hie, Bool.false_eq_true, if_false]
    rcases hcond with h | h <;> simp [h]
  · intro avail profile courses hist h
    by_cases hne : hist = []
    · subst hne
      simp [prepare_enhanced_context_prompt] at h
    · have hie : hist.isEmpty = false := by
        cases hist with
        | nil => exact absurd rfl hne
        | cons a t => rfl
      simp only [prepare_enhanced_context_prompt, hie, Bool.false_eq_true, if_false] at h
      split_ifs at h with h1 h2 h3 h4
      have h2' : is_greeting (latest_user_message hist) = true ∧ hist.length ≤ 2 := by
        simpa using h2
      exact ⟨h2'.1, h2'.2, hne⟩

/-- Witness for C6 at concrete inputs: a turn matching a previously
suggested course is dispatched to the specific-course branch, and the sole
greeting-branch run satisfies the short-greeting conditions. -/
theorem C6_amended_intent_precedence_witness :
    prepare_enhanced_context_prompt .noFaiss bachelorProfile []
      [⟨"assistant", "try **Bachelor of Commerce at Jain** today"⟩,
       ⟨"user", "tell me about bachelor of commerce please"⟩] = TurnBranch.courseDetails
    ∧ (is_greeting (latest_user_message [Msg.mk "user" "hello"]) = true
       ∧ ([Msg.mk "user" "hello"] : List Msg).length ≤ 2
       ∧ ([Msg.mk "user" "hello"] : List Msg) ≠ []) := by
  constructor
  · exact C6_amended_intent_precedence.1 .noFaiss bachelorProfile []
      [⟨"assistant", "try **Bachelor of Commerce at Jain** today"⟩,
       ⟨"user", "tell me about bachelor of commerce please"⟩]
      (by decide) (Or.inr (by decide))
  · exact C6_amended_intent_precedence.2 .noFaiss bachelorProfile []
      [Msg.mk "user" "hello"] (by decide)

/-- C8 (counterexample): the canonical alternatives example of the specification, a
request, a domain-phrased turn, is not recognized by the keyword test, and
the dispatcher routes it to the general-continuation branch -- no domain is
extracted anywhere. -/
theorem C8_counterexample_domain_phrase_not_recognized :
    check_if_asking_for_more_suggestions "show me some business courses instead" = false
    ∧ prepare_enhanced_context_prompt .noFaiss bachelorProfile
        [designCourse, commerceCourse]
        [⟨"user", "show me some business courses instead"⟩] =
          TurnBranch.generalOrSemantic := by
  decide

/-- C8 (amended): a turn is recognized as an alternatives request only via
the fixed keyword list (no domain parsing); for a recognized turn the
recomputed candidates exclude every already-shown title (case-insensitive)
and are truncated to 3, and when no unshown candidate remains the dispatcher
emits the explicit no-further-alternatives context. -/
theorem C8_amended_alternatives_exclusion :
    ∀ (avail : FaissAvail) (profile : Profile) (courses : List Course) (hist : List Msg),
      hist ≠ [] →
      check_if_asking_for_course_details (latest_user_message hist) = false →
      (identify_course_from_user_query (latest_user_message hist)
        (extract_suggested_courses_from_chat hist)).isSome = false →
      (is_greeting (latest_user_message hist) && decide (hist.length ≤ 2)) = false →
      is_confusion_expression (latest_user_message hist) = false →
      check_if_asking_for_more_suggestions (latest_user_message hist) = true →
      (prepare_enhanced_context_prompt avail profile courses hist =
        (if (((get_smart_course_recommendations avail profile courses).filter
              (fun c => !(((extract_suggested_courses_from_chat hist).map pyLower).contains
                (pyLower c.course)))).take 3).isEmpty
         then TurnBranch.noMoreAlternatives
         else TurnBranch.moreSuggestions
           (((get_smart_course_recommendations avail profile courses).filter
              (fun c => !(((extract_suggested_courses_from_chat hist).map pyLower).contains
                (pyLower c.course)))).take 3)))
      ∧ (∀ cs, prepare_enhanced_context_prompt avail profile courses hist =
            TurnBranch.moreSuggestions cs →
          cs.length ≤ 3 ∧ ∀ c ∈ cs,
            ((extract_suggested_courses_from_chat hist).map pyLower).contains
              (pyLower c.course) = false) := by
  intro avail profile courses hist hne hdet hspec hgreet hconf hmore
  have hie : hist.isEmpty = false := by
    cases hist with
    | nil => exact absurd rfl hne
    | cons a t => rfl
  have hshape : prepare_enhanced_context_prompt avail profile courses hist =
      (if (((get_smart_course_recommendations avail profile courses).filter
            (fun c => !(((extract_suggested_courses_from_chat hist).map pyLower).contains
              (pyLower c.course)))).take 3).isEmpty
       then TurnBranch.noMoreAlternatives
       else TurnBranch.moreSuggestions
         (((get_smart_course_recommendations avail profile courses).filter
            (fun c => !(((extract_suggested_courses_from_chat hist).map pyLower).contains
              (pyLower c.course)))).take 3)) := by
    simp only [prepare_enhanced_context_prompt, hie, Bool.false_eq_true, if_false,
      hdet, hspec, hgreet, hconf, hmore, Bool.or_self, Bool.false_eq_true, if_false,
      if_true]
  refine ⟨hshape, fun cs hcs => ?_⟩
  rw [hshape] at hcs
  split at hcs
  · simp at hcs
  · have hcs' := (TurnBranch.moreSuggestions.injEq _ _).mp hcs.symm
    subst hcs'
    constructor
    · rw [List.length_take]
      omega
    · intro c hc
      have hmem : c ∈ (get_smart_course_recommendations avail profile courses).filter
          (fun c => !(((extract_suggested_courses_from_chat hist).map pyLower).contains
            (pyLower c.course))) := List.mem_of_mem_take hc
      have := (List.mem_filter.mp hmem).2
      simpa using this

/-- Witness for C8 at a concrete input: after one suggestion was shown in
bold, a show-me-more turn recomputes candidates that exclude the shown title
and surface only the unshown course. -/
theorem C8_amended_alternatives_exclusion_witness :
    prepare_enhanced_context_prompt .noFaiss bachelorProfile
      [{ course := "Bachelor of Commerce at Jain" }, { course := "Bachelor of Design at Jain" }]
      [⟨"assistant", "I recommend **Bachelor of Commerce at Jain** for you"⟩,
       ⟨"user", "show me more"⟩] =
      TurnBranch.moreSuggestions [{ course := "Bachelor of Design at Jain" }] := by
  have h := (C8_amended_alternatives_exclusion .noFaiss bachelorProfile
      [{ course := "Bachelor of Commerce at Jain" }, { course := "Bachelor of Design at Jain" }]
      [⟨"assistant", "I recommend **Bachelor of Commerce at Jain** for you"⟩,
       ⟨"user", "show me more"⟩]
      (by decide) (by decide) (by decide) (by decide) (by decide) (by decide)).1
  rw [h]
  decide

/-- Filtering is unaffected by replacing an element the filter rejects with
another rejected element. -/
theorem filter_set_of_not {α : Type} (p : α → Bool) :
    ∀ (l : List α) (i : Nat) (x : α), p x = false →
      (∀ a, l.get? i = some a → p a = false) →
      (l.set i x).filter p = l.filter p := by
  intro l
  induction l with
  | nil => intro i x hx hold; rfl
  | cons a t ih =>
    intro i x hx hold
    cases i with
    | zero =>
      have ha : p a = false := hold a rfl
      simp [List.filter_cons, hx, ha]
    | succ n =>
      have ht : (t.set n x).filter p = t.filter p :=
        ih n x hx (fun b hb => hold b hb)
      cases hpa : p a <;> simp [List.set, List.filter_cons, hpa, ht]

/-- Sorting commutes with filtering for the ranking order. -/
theorem insertionSort_filter_comm (p : Nat × ℚ → Bool) (l : List (Nat × ℚ)) :
    (l.insertionSort rankRel).filter p = (l.filter p).insertionSort rankRel := by
  apply List.eq_of_perm_of_sorted (r := rankRel)
  · exact ((List.perm_insertionSort rankRel l).filter p).trans
      (List.perm_insertionSort rankRel (l.filter p)).symm
  · exact (List.sorted_insertionSort rankRel l).filter p
  · exact List.sorted_insertionSort rankRel _

/-- Decorating a list with indices commutes with a point replacement. -/
theorem enum_set {α : Type} (l : List α) (i : Nat) (a : α) :
    (l.set i a).enum = l.enum.set i (i, a) := by
  apply List.ext_get?
  intro n
  simp only [List.get?_enum, List.get?_set]
  by_cases h : i = n
  · subst h
    cases hg : l.get? i <;> simp [hg]
  · simp [h]

/-- Replacing one embedding vector leaves the rankings of all other vectors
unchanged: filtering the full ranking of the updated index down to the other
indices gives exactly the filtered ranking of the old index. -/
theorem scores_filter_set {E : Type} (sim : E → E → ℚ) (entries : List E)
    (idx : Nat) (e : E) (q : E) :
    (((entries.set idx e).enum.map (fun p => (p.1, sim q p.2))).filter
      ((fun j => j != idx) ∘ Prod.fst)) =
    ((entries.enum.map (fun p => (p.1, sim q p.2))).filter
      ((fun j => j != idx) ∘ Prod.fst)) := by
  by_cases hlen : idx < entries.length
  · rw [enum_set, List.map_set]
    apply filter_set_of_not
    · simp [Function.comp_def]
    · intro a ha
      rw [List.get?_map, List.get?_enum] at ha
      cases hg : entries.get? idx with
      | none => rw [hg] at ha; simp at ha
      | some b =>
        rw [hg] at ha
        simp at ha
        simp [Function.comp_def, ← ha]
  · rw [List.set_eq_of_length_le (by omega)]

/-- Replacing one embedding vector leaves the rankings of all other vectors
unchanged: filtering the full ranking of the updated index down to the other
indices gives exactly the filtered ranking of the old index. -/
theorem faiss_ranking_frame {E : Type} (sim : E → E → ℚ) (entries : List E)
    (idx : Nat) (e : E) (q : E) :
    (faiss_full_ranking sim (entries.set idx e) q).filter (fun j => j != idx) =
    (faiss_full_ranking sim entries q).filter (fun j => j != idx) := by
  unfold faiss_full_ranking
  rw [List.filter_map, List.filter_map, insertionSort_filter_comm,
    insertionSort_filter_comm, scores_filter_set]

/-- C9 (amended): on an initialized matcher, the point-update for a course
found by URL swaps only the embedding row of that course (all other rows are left
unchanged and the row count is preserved), updates only the metadata entry
of that course, and then rebuilds the FAISS index in full from the embedding
matrix -- re-adding the normalized vector of every course, not just the updated
one -- after which the index contents differ from the old ones at most in
the updated slot, and the relative ranking of all other courses under any
query is exactly what it was before the update. -/
theorem C9_amended_point_update :
    ∀ (E : Type) (encode : String → E) (normalize : E → E) (sim : E → E → ℚ)
      (st : MatcherState E) (url : String) (scraped : ScrapedData) (idx : Nat),
      st.courses.findIdx? (fun c => c.source_url == url) = some idx →
      st.initialized = true →
      ((add_scraped_course_data encode normalize st url scraped).1 = true
      ∧ (∀ j, j ≠ idx →
          (add_scraped_course_data encode normalize st url scraped).2.course_embeddings.get? j =
            st.course_embeddings.get? j)
      ∧ (add_scraped_course_data encode normalize st url scraped).2.course_embeddings.length =
          st.course_embeddings.length
      ∧ (add_scraped_course_data encode normalize st url scraped).2.faiss_entries =
          (add_scraped_course_data encode normalize st url scraped).2.course_embeddings.map normalize
      ∧ (add_scraped_course_data encode normalize st url scraped).2.index_adds =
          st.course_embeddings.length
      ∧ (∀ j, j ≠ idx →
          (add_scraped_course_data encode normalize st url scraped).2.course_metadata.get? j =
            st.course_metadata.get? j)
      ∧ (st.faiss_entries = st.course_embeddings.map normalize →
          (∀ j, j ≠ idx →
            (add_scraped_course_data encode normalize st url scraped).2.faiss_entries.get? j =
              st.faiss_entries.get? j)
          ∧ ∀ q, (faiss_full_ranking sim
              (add_scraped_course_data encode normalize st url scraped).2.faiss_entries q).filter
                (fun j => j != idx) =
            (faiss_full_ranking sim st.faiss_entries q).filter (fun j => j != idx))) := by
  intro E encode normalize sim st url scraped idx hfind hinit
  simp only [add_scraped_course_data, hfind, hinit, if_true, rebuild_faiss_index]
  refine ⟨trivial, ?_, ?_, trivial, ?_, ?_, ?_⟩
  · intro j hj
    rw [List.get?_set, if_neg (show ¬(idx = j) from fun h => hj h.symm)]
  · exact List.length_set ..
  · exact List.length_set ..
  · intro j hj
    simp only [listModify]
    cases hg : st.course_metadata.get? idx with
    | none => rfl
    | some m =>
      rw [List.get?_set, if_neg (show ¬(idx = j) from fun h => hj h.symm)]
  · intro hwf
    constructor
    · intro j hj
      rw [List.map_set, ← hwf, List.get?_set,
        if_neg (show ¬(idx = j) from fun h => hj h.symm)]
    · intro q
      rw [List.map_set, ← hwf]
      exact faiss_ranking_frame sim st.faiss_entries idx _ q

/-- Scraped record used by the C9 counterexample and witness. -/
def scrX : ScrapedData := { subjects := ["Extra"] }

/-- Two-course initialized matcher state of the C9 counterexample, over
integer stand-in embeddings. -/
def st0 : MatcherState Int :=
  { courses := [{ course := "Bachelor of Commerce at Jain", source_url := "u1" },
                { course := "Bachelor of Design at Jain", source_url := "u2" }]
    course_embeddings := [5, 7]
    faiss_entries := [5, 7]
    index_adds := 2
    course_metadata := []
    enhanced_course_data := []
    initialized := true }

/-- Text-length encoder standing in for the external embedding model in the
C9 counterexample. -/
def encodeLen (s : String) : Int := (s.data.length : Int)

set_option maxRecDepth 8000 in
/-- C9 (counterexample): updating the enrichment of the first course changes only
its embedding row, but the FAISS index is rebuilt in full -- the rebuild
re-adds the vectors of both courses (index_adds = 2), not only the updated one,
contradicting the claim that the rest of the index is not recomputed. -/
theorem C9_counterexample_full_rebuild :
    ((add_scraped_course_data encodeLen id st0 "u1" scrX).1 = true)
    ∧ ((add_scraped_course_data encodeLen id st0 "u1" scrX).2.index_adds = 2)
    ∧ ((add_scraped_course_data encodeLen id st0 "u1" scrX).2.course_embeddings.get? 1 =
        st0.course_embeddings.get? 1)
    ∧ ((add_scraped_course_data encodeLen id st0 "u1" scrX).2.course_embeddings.get? 0 ≠
        st0.course_embeddings.get? 0) := by
  decide

set_option maxRecDepth 8000 in
/-- Witness for C9 at a concrete input: applying the amended theorem to the
two-course state and checking the untouched row and the ranking frame at a
concrete query. -/
theorem C9_amended_point_update_witness :
    ((add_scraped_course_data encodeLen id st0 "u1" scrX).2.course_embeddings.get? 1 =
      st0.course_embeddings.get? 1)
    ∧ (faiss_full_ranking (fun a b => ((a * b : Int) : ℚ))
        (add_scraped_course_data encodeLen id st0 "u1" scrX).2.faiss_entries 1).filter
          (fun j => j != 0) =
      (faiss_full_ranking (fun a b => ((a * b : Int) : ℚ)) st0.faiss_entries 1).filter
        (fun j => j != 0) := by
  have h := C9_amended_point_update Int encodeLen id (fun a b => ((a * b : Int) : ℚ))
    st0 "u1" scrX 0 (by decide) rfl
  exact ⟨h.2.1 1 (by decide), (h.2.2.2.2.2.2 rfl).2 1⟩

end DYD
